import Mathlib

/-!
Shallow embedding of the Solstice SDK proof-generation and
challenge-response core (TypeScript sources under src/), together with
theorems settling the frozen claims about it.

Modelling conventions, used throughout:
* JavaScript numbers that the code only ever uses as integers
  (timestamps from Date.now, ages, thresholds) are modelled as Int;
  Math.floor of a float division is modelled as Int.fdiv.
* Date.now() is modelled by an explicit nowMs argument; a single call
  of an operation reads one instant.
* generateNonce() and the random values produced inside the mock prover
  are modelled by an explicit RandomOracle argument.
* Strings are modelled by String; the JavaScript substring and length
  operations (UTF-16 code units) are modelled over characters, which
  agrees with the source for the ASCII data the SDK handles.
* Thrown exceptions are modelled with Except; the catch-and-rewrap
  blocks of the source become explicit error constructors.
* The external prover (snarkjs) and the Poseidon commitment builder of
  the enhanced generator are opaque capabilities and are passed in as
  function arguments.
* Each generation operation also returns a Nat counting how many times
  the prover-invocation wrapper (generateProofWithTimeout in the base
  generator, generateProofWithSnarkjs in the enhanced one) was reached.
-/

namespace Solstice

/-- JavaScript truthiness fallback (a || b) for optional strings: an
absent or empty string falls back to the default. -/
def jsOr (v : Option String) (d : String) : String :=
  match v with
  | none => d
  | some s => if s = ("") then d else s

/-- JavaScript truthiness fallback (a || b) for optional integers: an
absent value or 0 falls back to the default. -/
def jsOrInt (v : Option Int) (d : Int) : Int :=
  match v with
  | none => d
  | some x => if x = 0 then d else x

/-- ToInt32 as performed by the JavaScript bitwise operators: wrap into
the interval from -2^31 to 2^31 - 1. -/
def toInt32 (n : Int) : Int :=
  (n + 2147483648) % 4294967296 - 2147483648

/-- First n characters of a string; models String.prototype.substring(0, n). -/
def takeStr (s : String) (n : Nat) : String :=
  String.mk (s.data.take n)

/-- Embeds ProofGenerator.mockPoseidon: concatenates the stringified
inputs and keeps the first 64 characters. -/
def mockPoseidon (inputs : List String) : String :=
  takeStr (inputs.foldl (fun acc v => acc ++ v) ("")) 64

/-- Embeds stringToFieldElement from ProofGenerator: the classic
shift-and-subtract 32-bit string hash, absolute value, rendered in
decimal. -/
def stringToFieldElement (s : String) : String :=
  toString (s.data.foldl
    (fun h c => toInt32 (toInt32 (h * 32) - h + (c.toNat : Int))) 0).natAbs

/-- UTF-8 bytes of one character; models the TextEncoder used by
hashInputs (String.toUTF8 is not kernel-reducible, hence this local
encoder). -/
def utf8Bytes (c : Char) : List Nat :=
  let n := c.toNat
  if n < 128 then [n]
  else if n < 2048 then [192 + n / 64, 128 + n % 64]
  else if n < 65536 then [224 + n / 4096, 128 + (n / 64) % 64, 128 + n % 64]
  else [240 + n / 262144, 128 + (n / 4096) % 64, 128 + (n / 64) % 64, 128 + n % 64]

/-- Interleave a separator between list elements; models Array.prototype.join. -/
def joinSep (sep : String) : List String → String
  | [] => ("")
  | [x] => x
  | x :: y :: xs => x ++ sep ++ joinSep sep (y :: xs)

/-- Embeds hashInputs from utils/helpers (the crypto.subtle branch):
joins the inputs with a pipe, encodes the result as UTF-8 and
concatenates the decimal byte values. -/
def hashInputs (inputs : List String) : String :=
  String.join (((joinSep ("|") inputs).data.flatMap utf8Bytes).map toString)

/-- Characters admitted by the DAO-id regular expression
(alphanumerics, hyphen, underscore). -/
def isDaoChar (c : Char) : Bool :=
  c.isAlphanum || c = '-' || c = '_'

/-- Splits a character list at every occurrence of the separator;
models String.prototype.split with a one-character separator. -/
def splitOnChar (sep : Char) : List Char → List (List Char)
  | [] => [[]]
  | c :: rest =>
    if c = sep then [] :: splitOnChar sep rest
    else match splitOnChar sep rest with
      | [] => [[c]]
      | g :: gs => (c :: g) :: gs

/-- Models the JavaScript Number() conversion on the pieces produced by
splitting a date string: the empty string converts to 0, a digit string
to its value, anything else to NaN (none). -/
def jsNumber (cs : List Char) : Option Int :=
  if cs = [] then some 0
  else if cs.all Char.isDigit then
    some ((cs.foldl (fun a c => a * 10 + (c.toNat - 48)) 0 : Nat) : Int)
  else none

/-- Days from the civil epoch 1970-01-01 for a proleptic Gregorian
date; standard epoch-day computation, linear in the day argument so
that out-of-range days roll over exactly as the JavaScript Date
constructor normalises them. -/
def daysFromCivil (y m d : Int) : Int :=
  let yAdj := if m ≤ 2 then y - 1 else y
  let era := yAdj.fdiv 400
  let yoe := yAdj - era * 400
  let mp := if 2 < m then m - 3 else m + 9
  let doy := (153 * mp + 2).fdiv 5 + d - 1
  let doe := yoe * 365 + yoe.fdiv 4 - yoe.fdiv 100 + doy
  era * 146097 + doe - 719468

/-- Epoch days of new Date(year, monthZeroBased, day): two-digit years
map to the twentieth century and out-of-range months and days roll
over; the Date is modelled in UTC. -/
def jsDateDays (y mZero d : Int) : Int :=
  let y1 := if 0 ≤ y ∧ y ≤ 99 then y + 1900 else y
  let ym := y1 * 12 + mZero
  let y2 := ym.fdiv 12
  let m2 := ym.emod 12 + 1
  daysFromCivil y2 m2 d

/-- Embeds dateToTimestamp from utils/helpers: splits a DD/MM/YYYY
string on slashes, converts the first three pieces with Number, builds
the Date and returns its Unix timestamp in seconds; none models the NaN
timestamp of an unparsable date. -/
def dateToTimestamp (s : String) : Option Int :=
  match splitOnChar '/' s.data with
  | dcs :: mcs :: ycs :: _ =>
    match jsNumber dcs, jsNumber mcs, jsNumber ycs with
    | some d, some m, some y => some (jsDateDays y (m - 1) d * 86400)
    | _, _, _ => none
  | _ => none

/-- Embeds calculateAge from utils/helpers: seconds since birth divided
by 365.25 days, floored; none models the NaN age of an unparsable date
of birth. -/
def calculateAge (dateOfBirth : String) (nowMs : Int) : Option Int :=
  (dateToTimestamp dateOfBirth).map
    (fun birthTimestamp => ((nowMs.fdiv 1000) - birthTimestamp).fdiv 31557600)

/-- Embeds SUPPORTED_COUNTRIES from utils/constants. -/
def SUPPORTED_COUNTRIES : List String :=
  [("US"), ("IN"), ("UK"), ("CA"), ("AU"), ("DE"), ("FR"), ("JP"), ("KR"),
   ("SG"), ("BR"), ("MX"), ("AR"), ("CL"), ("PE"), ("CO"), ("VE"), ("UY"),
   ("PY"), ("BO"), ("EC"), ("GY"), ("SR"), ("FK"), ("GF"), ("PF"), ("NC"),
   ("VU"), ("FJ"), ("SB"), ("PG"), ("NR"), ("TV"), ("KI"), ("MH"), ("FM"),
   ("PW"), ("WS"), ("TO"), ("AS")]

/-- Embeds CIRCUIT_CACHE_TTL from utils/constants: seven days in
milliseconds. -/
def CIRCUIT_CACHE_TTL : Int := 7 * 24 * 60 * 60 * 1000

/-- Embeds the SESSION_EXPIRED member of ERROR_CODES from
utils/constants. -/
def ERROR_CODE_SESSION_EXPIRED : String := ("SESSION_EXPIRED")

/-- The SolsticeError subclasses raised by the embedded operations,
carrying their message (and for ProofGenerationError the optional
attributeType tag). -/
inductive SdkError where
  | invalidParameters (message : String)
  | proofGenerationFailed (message : String) (attributeType : Option String)
  | circuitLoadFailed (message : String)
deriving DecidableEq

/-- String interpolation of an error inside a template literal, as name
colon message. -/
def SdkError.jsString : SdkError → String
  | .invalidParameters m => ("InvalidParametersError: ") ++ m
  | .proofGenerationFailed m _ => ("ProofGenerationError: ") ++ m
  | .circuitLoadFailed m => ("CircuitLoadError: ") ++ m

/-- Machine-readable code carried by each error class (ERROR_CODES in
utils/constants). -/
def SdkError.code : SdkError → String
  | .invalidParameters _ => ("INVALID_PARAMETERS")
  | .proofGenerationFailed _ _ => ("PROOF_GENERATION_FAILED")
  | .circuitLoadFailed _ => ("CIRCUIT_LOAD_FAILED")

/-- Whether a result is an InvalidParametersError failure. -/
def errIsInvalidParams {α : Type} : Except SdkError α → Bool
  | .error (.invalidParameters _) => true
  | _ => false

/-- Whether a result is any failure. -/
def isErrorResult {α : Type} : Except SdkError α → Bool
  | .error _ => true
  | .ok _ => false

/-- Error code of a failed result. -/
def errCode {α : Type} : Except SdkError α → Option String
  | .error e => some e.code
  | .ok _ => none

/-- The fields of the validated AadhaarData record that the embedded
operations read (referenceId, name, dateOfBirth, state); the remaining
address fields are never consulted by the embedded code paths and are
omitted. -/
structure AadhaarData where
  referenceId : String
  name : String
  dateOfBirth : String
  state : Option String
deriving DecidableEq

/-- The parameter object handed to a generation operation. The
TypeScript interfaces type each field, but the objects reaching the
generators may come from JSON or any-typed casts, so every field is
optional here, none modelling an absent (undefined) field. -/
structure ProofParams where
  threshold : Option Int := none
  allowedCountries : Option (List String) := none
  daoId : Option String := none
  epochId : Option String := none
  scope : Option String := none
  nonce : Option String := none
  type : Option String := none
deriving DecidableEq

/-- Groth16-shaped proof object. -/
structure Groth16Proof where
  pi_a : List String
  pi_b : List (List String)
  pi_c : List String
  protocol : String
  curve : String
deriving DecidableEq

/-- The fixed proof object returned by mockGenerateProof. -/
def mockProofValue : Groth16Proof :=
  { pi_a := [("0x1234567890abcdef"), ("0x0987654321fedcba")],
    pi_b := [[("0x1111222233334444"), ("0x5555666677778888")],
             [("0x9999aaaabbbbcccc"), ("0xddddeeeeffffaaaa")]],
    pi_c := [("0xabcdef1234567890"), ("0xfedcba0987654321")],
    protocol := ("groth16"),
    curve := ("bn128") }

/-- ProofMetadata from types/index. -/
structure ProofMetadata where
  threshold : Option Int := none
  countries : Option (List String) := none
  daoId : Option String := none
  epochId : Option String := none
  timestamp : Int
  identityCommitment : Option String := none
  nullifier : Option String := none
deriving DecidableEq

/-- ProofData from types/index; attributeType is the kind tag. -/
structure ProofData where
  proof : Groth16Proof
  publicSignals : List String
  attributeType : String
  metadata : Option ProofMetadata
deriving DecidableEq

/-- The random values a single generation call may draw: the
generateNonce fallback for params.nonce, and the two generateNonce
draws inside mockGenerateProof. -/
structure RandomOracle where
  genNonce : String
  proverNonce : String
  proverNonce2 : String
deriving DecidableEq

/-- Message of the age threshold validation failure. -/
def ageInvalidMsg : String :=
  ("Age threshold must be an integer between 0 and 150")

/-- Message of the below-threshold failure, interpolated with the
computed age and the threshold. -/
def ageBelowMsg (age t : Int) : String :=
  ("User age (") ++ toString age ++ (") does not meet threshold (")
    ++ toString t ++ (")")

/-- Embeds validateAgeThreshold from utils/helpers over the optional
threshold field: an absent field models the undefined value, which
fails the Number.isInteger test. -/
def validAgeThreshold : Option Int → Bool
  | none => false
  | some t => decide (0 ≤ t) && decide (t ≤ 150)

/-- Success value of the base generateAgeProof: the mock proof, the
public signals produced by mockGenerateProof (its third entry is the
stringified threshold, the age_threshold circuit input), and metadata
recording threshold and timestamp. -/
def ageSuccess (t : Int) (nowMs : Int) (oracle : RandomOracle) : ProofData :=
  { proof := mockProofValue,
    publicSignals := [takeStr oracle.proverNonce 32, toString nowMs, toString t],
    attributeType := ("age"),
    metadata := some { threshold := some t, timestamp := nowMs } }

/-- Embeds ProofGenerator.generateAgeProof. validateAgeThreshold runs
outside the try block, so its failure escapes as an
InvalidParametersError; the below-threshold check sits inside the try
block, so its failure is rewrapped by the catch clause into a
ProofGenerationError tagged with age. An unparsable date of birth
yields a NaN age, on which the below-threshold comparison is false, so
generation proceeds, as in the source. The second component counts
invocations of the prover wrapper generateProofWithTimeout. -/
def generateAgeProof (data : AadhaarData) (params : ProofParams)
    (nowMs : Int) (oracle : RandomOracle) : Except SdkError ProofData × Nat :=
  match params.threshold with
  | none => ((.error (.invalidParameters ageInvalidMsg)), 0)
  | some t =>
    if t < 0 ∨ 150 < t then ((.error (.invalidParameters ageInvalidMsg)), 0)
    else
      match calculateAge data.dateOfBirth nowMs with
      | some age =>
        if age < t then
          ((.error (.proofGenerationFailed
            (("Age proof generation failed: InvalidParametersError: ")
              ++ ageBelowMsg age t) (some ("age")))), 0)
        else ((.ok (ageSuccess t nowMs oracle)), 1)
      | none => ((.ok (ageSuccess t nowMs oracle)), 1)

/-- Embeds validateNationalityParams from utils/helpers over the
optional country-list field: an absent field models the undefined
value, which fails the Array.isArray test with the same message as an
empty array. -/
def validateNationalityParams : Option (List String) → Option SdkError
  | none => some (.invalidParameters ("Countries array cannot be empty"))
  | some cs =>
    if cs.isEmpty then
      some (.invalidParameters ("Countries array cannot be empty"))
    else
      match cs.filter (fun c => !(SUPPORTED_COUNTRIES.contains c)) with
      | [] => none
      | invalid =>
        some (.invalidParameters
          (("Unsupported countries: ") ++ joinSep (", ") invalid))

/-- Embeds ProofGenerator.getCountryCode, which returns the fixed
country code IN regardless of the state argument. -/
def getCountryCode (_state : String) : String := ("IN")

/-- Success value of the base generateNationalityProof. -/
def nationalitySuccess (cs : List String) (nowMs : Int)
    (oracle : RandomOracle) : ProofData :=
  { proof := mockProofValue,
    publicSignals := [takeStr oracle.proverNonce 32, toString nowMs,
      takeStr oracle.proverNonce2 16],
    attributeType := ("nationality"),
    metadata := some { countries := some cs, timestamp := nowMs } }

/-- Embeds ProofGenerator.generateNationalityProof.
validateNationalityParams runs outside the try block and escapes as an
InvalidParametersError; the membership check compares the allowed list
against getCountryCode of the state, which is always IN, and sits
inside the try block, so its failure is rewrapped into a
ProofGenerationError tagged with nationality. -/
def generateNationalityProof (data : AadhaarData) (params : ProofParams)
    (nowMs : Int) (oracle : RandomOracle) : Except SdkError ProofData × Nat :=
  match validateNationalityParams params.allowedCountries with
  | some e => ((.error e), 0)
  | none =>
    let cs := params.allowedCountries.getD []
    let userCountry := getCountryCode (jsOr data.state (""))
    if cs.contains userCountry then
      ((.ok (nationalitySuccess cs nowMs oracle)), 1)
    else
      ((.error (.proofGenerationFailed
        ("Nationality proof generation failed: InvalidParametersError: User nationality not in allowed countries list")
        (some ("nationality")))), 0)

/-- Embeds validateDaoId from utils/helpers, returning the validated
DAO id on success: an absent field models the undefined value, caught
by the falsiness test with the same message as the length test. -/
def validateDaoIdRes : Option String → Except SdkError String
  | none =>
    .error (.invalidParameters
      ("DAO ID must be a string between 3 and 50 characters"))
  | some d =>
    if d.length < 3 ∨ 50 < d.length then
      .error (.invalidParameters
        ("DAO ID must be a string between 3 and 50 characters"))
    else if !(d.data.all isDaoChar) then
      .error (.invalidParameters
        ("DAO ID can only contain alphanumeric characters, hyphens, and underscores"))
    else .ok d

/-- The claim-side characterisation of a valid DAO id: a string of 3 to
50 characters drawn from alphanumerics, hyphens and underscores. -/
def validDaoId : Option String → Bool
  | none => false
  | some d => decide (3 ≤ d.length) && decide (d.length ≤ 50) && d.data.all isDaoChar

/-- The nullifier computed by ProofGenerator.generateUniquenessProof:
mockPoseidon over reference id, DAO id and epoch id. -/
def uniquenessNullifier (referenceId daoId epochId : String) : String :=
  mockPoseidon [referenceId, daoId, epochId]

/-- The circuit inputs assembled by
ProofGenerator.generateUniquenessProof (lines 213 to 235 of the
source). -/
structure UniqInputs where
  identity_nullifier : String
  aadhaar_number_hash : String
  nonce : String
  dao_id : String
  epoch_id : String
  nullifier_hash : String
deriving DecidableEq

/-- Assembles the uniqueness circuit inputs from the record, the
validated DAO id, the resolved epoch id and the resolved nonce. -/
def uniquenessCircuitInputs (data : AadhaarData) (daoId epochId nonce : String) :
    UniqInputs :=
  { identity_nullifier :=
      mockPoseidon [data.referenceId, data.name, data.dateOfBirth],
    aadhaar_number_hash := mockPoseidon [data.referenceId],
    nonce := nonce,
    dao_id := stringToFieldElement daoId,
    epoch_id := stringToFieldElement epochId,
    nullifier_hash := uniquenessNullifier data.referenceId daoId epochId }

/-- Success value of the base generateUniquenessProof: the third public
signal is the dao_id circuit input picked up by mockGenerateProof. -/
def uniquenessSuccess (data : AadhaarData) (daoId epochId nonce : String)
    (nowMs : Int) (oracle : RandomOracle) : ProofData :=
  let inputs := uniquenessCircuitInputs data daoId epochId nonce
  { proof := mockProofValue,
    publicSignals := [takeStr oracle.proverNonce 32, toString nowMs, inputs.dao_id],
    attributeType := ("uniqueness"),
    metadata := some { daoId := some daoId, epochId := some epochId, timestamp := nowMs } }

/-- Embeds ProofGenerator.generateUniquenessProof. validateDaoId is the
first statement of the method and runs outside the try block, so its
failure escapes as an InvalidParametersError before any other work; the
epoch id falls back to the string global under JavaScript truthiness. -/
def generateUniquenessProof (data : AadhaarData) (params : ProofParams)
    (nowMs : Int) (oracle : RandomOracle) : Except SdkError ProofData × Nat :=
  match validateDaoIdRes params.daoId with
  | .error e => ((.error e), 0)
  | .ok d =>
    let nonce := jsOr params.nonce oracle.genNonce
    let epochId := jsOr params.epochId ("global")
    ((.ok (uniquenessSuccess data d epochId nonce nowMs oracle)), 1)

/-- A cache entry of the enhanced generator (interface ProofCache in
types/index): an attestation with its creation and expiry instants. -/
structure ProofCacheEntry where
  proofData : ProofData
  createdAt : Int
  expiresAt : Int
deriving DecidableEq

/-- The proof cache of the enhanced generator: a string-keyed map,
modelled as an association list with unique keys. -/
abbrev ProofCacheMap := List (String × ProofCacheEntry)

/-- Map lookup (Map.prototype.get). -/
def mapGet : ProofCacheMap → String → Option ProofCacheEntry
  | [], _ => none
  | (k, v) :: rest, key => if k = key then some v else mapGet rest key

/-- Removes every binding of a key. -/
def mapDelete : ProofCacheMap → String → ProofCacheMap
  | [], _ => []
  | (k, v) :: rest, key =>
    if k = key then mapDelete rest key else (k, v) :: mapDelete rest key

/-- Map update (Map.prototype.set): binds the key, replacing any
previous binding. -/
def mapSet (m : ProofCacheMap) (key : String) (v : ProofCacheEntry) :
    ProofCacheMap :=
  (key, v) :: mapDelete m key

/-- JSON serialisation of a parameter object, as JSON.stringify renders
it: present fields only, in declaration order, without escaping (the
SDK parameter values contain no characters needing escapes). -/
def serializeParams (p : ProofParams) : String :=
  let fs : List String :=
    (match p.threshold with
     | some t => [("\x22threshold\x22:") ++ toString t]
     | none => []) ++
    (match p.allowedCountries with
     | some cs =>
       [("\x22allowedCountries\x22:[") ++
         joinSep (",") (cs.map (fun c => ("\x22") ++ c ++ ("\x22"))) ++ ("]")]
     | none => []) ++
    (match p.daoId with
     | some s => [("\x22daoId\x22:\x22") ++ s ++ ("\x22")]
     | none => []) ++
    (match p.epochId with
     | some s => [("\x22epochId\x22:\x22") ++ s ++ ("\x22")]
     | none => []) ++
    (match p.scope with
     | some s => [("\x22scope\x22:\x22") ++ s ++ ("\x22")]
     | none => []) ++
    (match p.nonce with
     | some s => [("\x22nonce\x22:\x22") ++ s ++ ("\x22")]
     | none => []) ++
    (match p.type with
     | some s => [("\x22type\x22:\x22") ++ s ++ ("\x22")]
     | none => [])
  ("\x7b") ++ joinSep (",") fs ++ ("\x7d")

/-- Embeds EnhancedProofGenerator.generateCacheKey: the proof type,
an underscore, and hashInputs over reference id, proof type and the
JSON-serialised parameters. -/
def generateCacheKey (proofType : String) (data : AadhaarData)
    (params : ProofParams) : String :=
  proofType ++ ("_") ++
    hashInputs [data.referenceId, proofType, serializeParams params]

/-- The cache consultation performed at the start of each enhanced
generation operation: a hit requires a binding whose expiresAt is
strictly in the future. -/
def cacheLookup (m : ProofCacheMap) (key : String) (nowMs : Int) :
    Option ProofData :=
  match mapGet m key with
  | some e => if nowMs < e.expiresAt then some e.proofData else none
  | none => none

/-- Embeds EnhancedProofGenerator.cacheProof: stores the attestation
with createdAt now and expiresAt now plus CIRCUIT_CACHE_TTL (the
IndexedDB persistence is a no-op in the source). -/
def cacheProof (m : ProofCacheMap) (key : String) (pd : ProofData)
    (nowMs : Int) : ProofCacheMap :=
  mapSet m key { proofData := pd, createdAt := nowMs, expiresAt := nowMs + CIRCUIT_CACHE_TTL }

/-- Embeds EnhancedProofGenerator.clearExpiredProofs: deletes every
entry whose expiresAt is at or before now. -/
def clearExpiredProofs : ProofCacheMap → Int → ProofCacheMap
  | [], _ => []
  | (k, e) :: rest, nowMs =>
    if e.expiresAt ≤ nowMs then clearExpiredProofs rest nowMs
    else (k, e) :: clearExpiredProofs rest nowMs

/-- The circuit inputs assembled by the enhanced generateAgeProof. -/
structure AgeCircuitInputs where
  minAge : String
  isAboveAge : String
  commitmentHash : String
  age : String
  identitySecret : String
deriving DecidableEq

/-- The opaque snarkjs prover capability of the enhanced generator: it
either produces a proof with public signals or fails with a message. -/
abbrev AgeProver := AgeCircuitInputs → Except String (Groth16Proof × List String)

/-- The opaque Poseidon commitment capability of the enhanced
generator, already composed with the field-element stringification. -/
abbrev CommitFn := List String → String

/-- Prover step of the enhanced generateAgeProof: builds the identity
commitment and the circuit inputs, invokes the prover, and on success
returns and caches the attestation; a prover failure is rewrapped by
the catch clause. The ageStr argument is the stringified age (NaN for
an unparsable date of birth). -/
def enhancedAgeProve (cache : ProofCacheMap) (key : String)
    (data : AadhaarData) (t : Int) (nonce ageStr : String) (nowMs : Int)
    (commit : CommitFn) (prover : AgeProver) :
    Except SdkError ProofData × ProofCacheMap × Nat :=
  let commitment := commit [data.referenceId, data.name, data.dateOfBirth, nonce]
  let inputs : AgeCircuitInputs :=
    { minAge := toString t, isAboveAge := ("1"), commitmentHash := commitment,
      age := ageStr, identitySecret := nonce }
  match prover inputs with
  | .ok pr =>
    let pd : ProofData :=
      { proof := pr.1, publicSignals := pr.2, attributeType := ("age"),
        metadata := some { threshold := some t, timestamp := nowMs, identityCommitment := some commitment } }
    ((.ok pd), cacheProof cache key pd nowMs, 1)
  | .error m =>
    ((.error (.proofGenerationFailed (("Age proof generation failed: ") ++ m)
      (some ("age")))), cache, 1)

/-- Cache-miss path of the enhanced generateAgeProof: resolves the
nonce, recomputes the age and applies the below-threshold precondition
(whose failure the catch clause rewraps), then proves. -/
def enhancedAgeMiss (cache : ProofCacheMap) (key : String)
    (data : AadhaarData) (t : Int) (nonceOpt : Option String) (nowMs : Int)
    (oracle : RandomOracle) (commit : CommitFn) (prover : AgeProver) :
    Except SdkError ProofData × ProofCacheMap × Nat :=
  let nonce := jsOr nonceOpt oracle.genNonce
  match calculateAge data.dateOfBirth nowMs with
  | some age =>
    if age < t then
      ((.error (.proofGenerationFailed
        (("Age proof generation failed: InvalidParametersError: ")
          ++ ageBelowMsg age t) (some ("age")))), cache, 0)
    else enhancedAgeProve cache key data t nonce (toString age) nowMs commit prover
  | none => enhancedAgeProve cache key data t nonce ("NaN") nowMs commit prover

/-- Embeds EnhancedProofGenerator.generateAgeProof: threshold
validation, then the cache consultation keyed by generateCacheKey, and
only on a miss the proving path. The third component counts invocations
of the prover wrapper generateProofWithSnarkjs. -/
def enhancedGenerateAgeProof (cache : ProofCacheMap) (data : AadhaarData)
    (params : ProofParams) (nowMs : Int) (oracle : RandomOracle)
    (commit : CommitFn) (prover : AgeProver) :
    Except SdkError ProofData × ProofCacheMap × Nat :=
  match params.threshold with
  | none => ((.error (.invalidParameters ageInvalidMsg)), cache, 0)
  | some t =>
    if t < 0 ∨ 150 < t then ((.error (.invalidParameters ageInvalidMsg)), cache, 0)
    else
      match cacheLookup cache (generateCacheKey ("age") data params) nowMs with
      | some pd => ((.ok pd), cache, 0)
      | none =>
        enhancedAgeMiss cache (generateCacheKey ("age") data params) data t
          params.nonce nowMs oracle commit prover

/-- A Challenge issued by SolsticeSDK.generateChallenge, as decoded by
the holder. -/
structure Challenge where
  challengeId : String
  appId : String
  appName : String
  proofType : String
  params : ProofParams
  expiresAt : Int
  callbackUrl : Option String
  nonce : String
  createdAt : Int
deriving DecidableEq

/-- Options accepted by generateChallenge. -/
structure ChallengeOptions where
  expirationSeconds : Option Int := none
  callbackUrl : Option String := none
  nonce : Option String := none
deriving DecidableEq

/-- Embeds SolsticeSDK.formatChallengeParams: per proof type, a fresh
parameter object carrying only the type tag and the one relevant field,
with JavaScript truthiness defaults; an unknown type passes the
parameters through unchanged. -/
def formatChallengeParams (proofType : String) (p : ProofParams) : ProofParams :=
  if proofType = ("age") then
    { type := some ("age"), threshold := some (jsOrInt p.threshold 18) }
  else if proofType = ("nationality") then
    { type := some ("nationality"),
      allowedCountries := some (p.allowedCountries.getD []) }
  else if proofType = ("uniqueness") then
    { type := some ("uniqueness"), scope := some (jsOr p.scope ("global")) }
  else p

/-- Embeds SolsticeSDK.generateChallenge: fresh challenge id and nonce
from the oracle unless supplied, createdAt now, expiresAt now plus
1000 times the requested expiration seconds with a truthiness default
of 300; the transport encoding of the returned challenge is JSON plus
base64 and is not modelled. -/
def generateChallenge (appId appName proofType : String) (params : ProofParams)
    (options : ChallengeOptions) (nowMs : Int) (idNonce optNonce : String) :
    Challenge :=
  let expirationSeconds := jsOrInt options.expirationSeconds 300
  { challengeId := idNonce,
    appId := appId,
    appName := appName,
    proofType := proofType,
    params := formatChallengeParams proofType params,
    expiresAt := nowMs + expirationSeconds * 1000,
    callbackUrl := options.callbackUrl,
    nonce := jsOr options.nonce optNonce,
    createdAt := nowMs }

/-- The proof part of a Response, with optional fields modelling the
absent (undefined) values of a loosely structured object. -/
structure ResponseProof where
  pi_a : Option (List String) := none
  pi_b : Option (List (List String)) := none
  pi_c : Option (List String) := none
  publicSignals : Option (List String) := none
deriving DecidableEq

/-- A proof Response as built by respondToChallenge or received by
verifyProofResponse. -/
structure ProofResponse where
  challengeId : String
  proof : Option ResponseProof := none
  identityCommitment : Option String := none
  timestamp : Int
deriving DecidableEq

/-- The per-kind dispatch switch of SolsticeSDK.respondToChallenge;
the default branch throws an InvalidParametersError naming the unknown
proof type. -/
def dispatchProof (ch : Challenge) (data : AadhaarData) (nowMs : Int)
    (oracle : RandomOracle) : Except SdkError ProofData × Nat :=
  match ch.proofType with
  | "age" => generateAgeProof data ch.params nowMs oracle
  | "nationality" => generateNationalityProof data ch.params nowMs oracle
  | "uniqueness" => generateUniquenessProof data ch.params nowMs oracle
  | t => ((.error (.invalidParameters (("Unknown proof type: ") ++ t))), 0)

/-- The Response object built by respondToChallenge from a generated
attestation: the original challenge id, the proof pieces with the
public signals, the first public signal as identity commitment, and the
current instant. -/
def buildChallengeResponse (challengeId : String) (pd : ProofData)
    (nowMs : Int) : ProofResponse :=
  let pr : ResponseProof :=
    { pi_a := some pd.proof.pi_a, pi_b := some pd.proof.pi_b,
      pi_c := some pd.proof.pi_c, publicSignals := some pd.publicSignals }
  { challengeId := challengeId,
    proof := some pr,
    identityCommitment := pd.publicSignals.head?,
    timestamp := nowMs }

/-- Embeds SolsticeSDK.respondToChallenge over an already decoded
challenge (parseChallenge is transport decoding and is not modelled):
the expiry check throws inside the try block, so an expired challenge
surfaces as a ProofGenerationError rewrapping the expired message, and
no generation is dispatched; otherwise the per-kind generator runs and
on success the Response is returned, while its failure is rewrapped by
the same catch clause. -/
def respondToChallenge (ch : Challenge) (data : AadhaarData) (nowMs : Int)
    (oracle : RandomOracle) : Except SdkError ProofResponse × Nat :=
  if ch.expiresAt < nowMs then
    ((.error (.proofGenerationFailed
      ("Failed to respond to challenge: InvalidParametersError: Challenge has expired")
      none)), 0)
  else
    match dispatchProof ch data nowMs oracle with
    | (.ok pd, k) => ((.ok (buildChallengeResponse ch.challengeId pd nowMs)), k)
    | (.error e, k) =>
      ((.error (.proofGenerationFailed
        (("Failed to respond to challenge: ") ++ e.jsString) none)), k)

/-- Metadata of a successful verification result. -/
structure VerifyMetadata where
  proofType : String
  identityCommitment : Option String
  timestamp : Int
deriving DecidableEq

/-- Result object of verifyProofResponse. -/
structure VerifyResult where
  verified : Bool
  challengeId : String
  error : Option String := none
  metadata : Option VerifyMetadata := none
deriving DecidableEq

/-- The structural completeness test of verifyProofResponse: the proof
object and its pi_a and publicSignals fields must all be present
(arrays are always truthy, so emptiness is not checked). -/
def responseIncomplete (resp : ProofResponse) : Bool :=
  match resp.proof with
  | none => true
  | some pr => pr.pi_a.isNone || pr.publicSignals.isNone

/-- Embeds SolsticeSDK.verifyProofResponse: rejects a challenge id
mismatch, then a structurally incomplete proof, and otherwise returns a
verified result carrying the identity commitment and timestamp of the
response. -/
def verifyProofResponse (challengeId : String) (resp : ProofResponse) :
    VerifyResult :=
  if resp.challengeId ≠ challengeId then
    { verified := false, challengeId := challengeId,
      error := some ("Challenge ID mismatch") }
  else if responseIncomplete resp then
    { verified := false, challengeId := challengeId,
      error := some ("Invalid proof structure") }
  else
    let md : VerifyMetadata :=
      { proofType := ("zkp"),
        identityCommitment := resp.identityCommitment,
        timestamp := resp.timestamp }
    { verified := true, challengeId := challengeId, metadata := some md }

/-- Embeds chunk from utils/helpers: successive slices of the given
size. The SDK only calls it with size 3; size 0, on which the source
loop would not terminate, is totalised to take empty slices. -/
def chunk {α : Type} (size : Nat) : List α → List (List α)
  | [] => []
  | x :: xs => (x :: xs).take size :: chunk size (xs.drop (size - 1))
termination_by l => l.length
decreasing_by
  simp only [List.length_drop, List.length_cons]
  omega

/-- A batch request entry. -/
structure BatchProofRequest where
  type : String
  params : ProofParams
deriving DecidableEq

/-- The batch result: generated attestations plus an error list that is
absent when no request failed. -/
structure BatchProofResult where
  proofs : List ProofData
  errors : Option (List String)
deriving DecidableEq

/-- Converts a generator outcome into the per-request batch outcome:
a failure becomes the string pushed onto the error list (request type,
colon, stringified error). -/
def toBatchOutcome (t : String) : Except SdkError ProofData → Except String ProofData
  | .ok pd => .ok pd
  | .error e => .error (t ++ (": ") ++ e.jsString)

/-- One request of SolsticeSDK.batchGenerate: the per-kind switch
inside the per-request try block, whose default branch throws a plain
Error naming the unknown proof type. Each request carries its own
random oracle. -/
def runBatchRequest (data : AadhaarData) (nowMs : Int)
    (p : BatchProofRequest × RandomOracle) : Except String ProofData :=
  match p.1.type with
  | "age" => toBatchOutcome ("age") (generateAgeProof data p.1.params nowMs p.2).1
  | "nationality" =>
    toBatchOutcome ("nationality") (generateNationalityProof data p.1.params nowMs p.2).1
  | "uniqueness" =>
    toBatchOutcome ("uniqueness") (generateUniquenessProof data p.1.params nowMs p.2).1
  | t => .error (t ++ (": Error: Unknown proof type: ") ++ t)

/-- Successful payload of a batch outcome. -/
def batchOk : Except String ProofData → Option ProofData
  | .ok pd => some pd
  | .error _ => none

/-- Error string of a batch outcome. -/
def batchErr : Except String ProofData → Option String
  | .error s => some s
  | .ok _ => none

/-- Embeds SolsticeSDK.batchGenerate over the parsed record: the
requests are cut into chunks of three; within a chunk every request
runs in isolation, successful results are appended to the proof list
and failures to the error list (modelled in request order; the source
order of error pushes within one chunk depends on completion timing);
the error list is returned only when non-empty. -/
def batchGenerate (data : AadhaarData) (nowMs : Int)
    (reqs : List (BatchProofRequest × RandomOracle)) : BatchProofResult :=
  let chunks := chunk 3 reqs
  let outcomes := chunks.map (fun c => c.map (runBatchRequest data nowMs))
  let proofs := (outcomes.map (fun rs => rs.filterMap batchOk)).flatten
  let errs := (outcomes.map (fun rs => rs.filterMap batchErr)).flatten
  { proofs := proofs, errors := if errs.isEmpty then none else some errs }

/-! Shared concrete records and oracles used by counterexamples and
witnesses. -/

/-- A record whose holder is about ten years old in September 2020 and
whose region descriptor is KA. -/
def sampleRecord : AadhaarData :=
  { referenceId := ("r1"), name := ("nm"), dateOfBirth := ("01/01/2010"),
    state := some ("KA") }

/-- A record whose holder is about twenty years old in September 2020. -/
def adultRecord : AadhaarData :=
  { referenceId := ("r1"), name := ("nm"), dateOfBirth := ("01/01/2000"),
    state := some ("KA") }

/-- A fixed random oracle. -/
def sampleOracle : RandomOracle :=
  { genNonce := ("g"), proverNonce := ("p"), proverNonce2 := ("q") }

/-- A second fixed random oracle, distinct from the first. -/
def sampleOracle2 : RandomOracle :=
  { genNonce := ("g2"), proverNonce := ("p2"), proverNonce2 := ("q2") }

/-! Helper lemmas. -/

/-- Two strings with the same character data are equal. -/
theorem string_data_inj {a b : String} (h : a.data = b.data) : a = b := by
  cases a
  cases b
  exact congrArg String.mk h

/-- The character data of a nullifier is the first 64 characters of the
concatenated inputs. -/
theorem uniquenessNullifier_data (r d e : String) :
    (uniquenessNullifier r d e).data = (r.data ++ d.data ++ e.data).take 64 := by
  simp [uniquenessNullifier, mockPoseidon, takeStr, String.data_append]

/-- validateNationalityParams accepts a present list exactly when it is
non-empty and every entry is a supported country. -/
theorem validateNationality_some_none_iff (cs : List String) :
    validateNationalityParams (some cs) = none ↔
      (cs ≠ [] ∧ ∀ c ∈ cs, SUPPORTED_COUNTRIES.contains c = true) := by
  simp only [validateNationalityParams]
  by_cases hemp : cs.isEmpty
  · rw [if_pos hemp]
    constructor
    · intro h
      exact absurd h (by simp)
    · rintro ⟨hne, -⟩
      exact absurd (List.isEmpty_iff.mp hemp) hne
  · rw [if_neg hemp]
    cases hfil : cs.filter (fun x => !(SUPPORTED_COUNTRIES.contains x)) with
    | nil =>
      constructor
      · intro _
        refine ⟨fun he => hemp (by simp [he]), ?_⟩
        intro c hc
        by_contra hnc
        have hmem : c ∈ cs.filter (fun x => !(SUPPORTED_COUNTRIES.contains x)) :=
          List.mem_filter.mpr ⟨hc, by simpa using hnc⟩
        rw [hfil] at hmem
        exact absurd hmem (List.not_mem_nil c)
      · intro _
        rfl
    | cons a l =>
      constructor
      · intro h
        exact absurd h (by simp)
      · rintro ⟨-, hall⟩
        exfalso
        have hmem : a ∈ cs.filter (fun x => !(SUPPORTED_COUNTRIES.contains x)) :=
          hfil ▸ List.mem_cons_self a l
        have hsplit := List.mem_filter.mp hmem
        exact absurd (hall a hsplit.1) (by simpa using hsplit.2)

/-! Claim C1. -/

/-- C1 counterexample: for the ten-year-old record and threshold 18
(strictly above the computed age 10), generateAgeProof does fail
without reaching the prover wrapper, but the failure is not an
InvalidParametersError: the throw happens inside the try block and the
catch clause rewraps it as a ProofGenerationError, contradicting the
claim that a ParameterValidationError (InvalidParametersError) is
raised. -/
theorem c1_counterexample :
    errIsInvalidParams
      (generateAgeProof sampleRecord { threshold := some 18 } 1600000000000 sampleOracle).1 = false
    ∧ isErrorResult
      (generateAgeProof sampleRecord { threshold := some 18 } 1600000000000 sampleOracle).1 = true
    ∧ (generateAgeProof sampleRecord { threshold := some 18 } 1600000000000 sampleOracle).2 = 0 := by
  decide

/-- C1 (amended): when the threshold itself passes validateAgeThreshold
and the computed age is strictly below it, generateAgeProof fails
before the prover wrapper is reached (the invocation count stays 0),
with a ProofGenerationError tagged age that wraps the
invalid-parameters message; when the threshold fails its own
validation, the failure is an InvalidParametersError, again without
reaching the prover wrapper. -/
theorem c1_below_threshold_fails_before_prover (data : AadhaarData)
    (params : ProofParams) (nowMs : Int) (oracle : RandomOracle) :
    (∀ t age, params.threshold = some t → 0 ≤ t → t ≤ 150 →
      calculateAge data.dateOfBirth nowMs = some age → age < t →
      generateAgeProof data params nowMs oracle =
        ((.error (.proofGenerationFailed
          (("Age proof generation failed: InvalidParametersError: ")
            ++ ageBelowMsg age t) (some ("age")))), 0))
    ∧ (∀ t, params.threshold = some t → (t < 0 ∨ 150 < t) →
      generateAgeProof data params nowMs oracle =
        ((.error (.invalidParameters ageInvalidMsg)), 0)) := by
  constructor
  · intro t age ht h0 h150 hage hlt
    simp only [generateAgeProof, ht, hage]
    rw [if_neg (by omega)]
    rw [if_pos hlt]
  · intro t ht hbad
    simp only [generateAgeProof, ht]
    rw [if_pos hbad]

/-- C1 witness: the amended theorem applied to the ten-year-old record
with threshold 18 at a fixed instant. -/
theorem c1_witness :
    generateAgeProof sampleRecord { threshold := some 18 } 1600000000000 sampleOracle =
      ((.error (.proofGenerationFailed
        (("Age proof generation failed: InvalidParametersError: ")
          ++ ageBelowMsg 10 18) (some ("age")))), 0) :=
  (c1_below_threshold_fails_before_prover sampleRecord
    { threshold := some 18 } 1600000000000 sampleOracle).1 18 10 rfl
    (by decide) (by decide) (by decide) (by decide)

/-! Claim C3. -/

/-- C3 counterexample: the record has region KA, yet the call with
allowed list KA, MH fails with an InvalidParametersError (KA is not in
SUPPORTED_COUNTRIES), where the claim requires it to succeed; the
prover wrapper is not reached. -/
theorem c3_counterexample :
    errIsInvalidParams
      (generateNationalityProof sampleRecord
        { allowedCountries := some [("KA"), ("MH")] } 1600000000000 sampleOracle).1 = true
    ∧ (generateNationalityProof sampleRecord
        { allowedCountries := some [("KA"), ("MH")] } 1600000000000 sampleOracle).2 = 0 := by
  decide

/-- C3 (amended): generateNationalityProof raises InvalidParametersError
exactly when validateNationalityParams rejects the list, which happens
exactly when the list is absent, empty, or contains an entry outside
SUPPORTED_COUNTRIES; the holder region is never consulted: on a valid
list the membership check is for the fixed country code IN, its success
returns the attestation, and its failure surfaces as a wrapped
ProofGenerationError, not a parameter-validation error. In particular
the list KA, MH is rejected because KA is unsupported, and DL likewise. -/
theorem c3_nationality_validation (data : AadhaarData) (params : ProofParams)
    (nowMs : Int) (oracle : RandomOracle) :
    (validateNationalityParams params.allowedCountries = none ↔
      ∃ cs, params.allowedCountries = some cs ∧ cs ≠ [] ∧
        ∀ c ∈ cs, SUPPORTED_COUNTRIES.contains c = true)
    ∧ (∀ e, validateNationalityParams params.allowedCountries = some e →
        generateNationalityProof data params nowMs oracle = ((.error e), 0))
    ∧ (∀ cs, params.allowedCountries = some cs →
        validateNationalityParams params.allowedCountries = none →
        (cs.contains ("IN") = true →
          generateNationalityProof data params nowMs oracle =
            ((.ok (nationalitySuccess cs nowMs oracle)), 1))
        ∧ (cs.contains ("IN") = false →
          generateNationalityProof data params nowMs oracle =
            ((.error (.proofGenerationFailed
              ("Nationality proof generation failed: InvalidParametersError: User nationality not in allowed countries list")
              (some ("nationality")))), 0))) := by
  refine ⟨?_, ?_, ?_⟩
  · cases hcs : params.allowedCountries with
    | none => simp [validateNationalityParams]
    | some cs =>
      rw [validateNationality_some_none_iff]
      constructor
      · rintro ⟨hne, hall⟩
        exact ⟨cs, rfl, hne, hall⟩
      · rintro ⟨cs', heq, hne, hall⟩
        cases heq
        exact ⟨hne, hall⟩
  · intro e he
    simp only [generateNationalityProof, he]
  · intro cs hcs hval
    rw [hcs] at hval
    constructor
    · intro hin
      simp only [generateNationalityProof, hcs, hval, Option.getD_some,
        getCountryCode, hin, if_true]
    · intro hout
      simp only [generateNationalityProof, hcs, hval, Option.getD_some,
        getCountryCode, hout, Bool.false_eq_true, if_false]

/-- C3 witness: the amended theorem applied to the allowed list KA, MH,
which validateNationalityParams rejects because KA is unsupported. -/
theorem c3_witness :
    generateNationalityProof sampleRecord
      { allowedCountries := some [("KA"), ("MH")] } 1600000000000 sampleOracle =
      ((.error (.invalidParameters (("Unsupported countries: ") ++ ("KA")))), 0) :=
  (c3_nationality_validation sampleRecord
    { allowedCountries := some [("KA"), ("MH")] } 1600000000000 sampleOracle).2.1
    (.invalidParameters (("Unsupported countries: ") ++ ("KA"))) (by decide)

/-! Claim C4. -/

/-- C4 counterexample: with a 64-character reference id, two calls with
different scope identifiers (both valid DAO ids) and the same epoch
compute the same nullifier, because mockPoseidon truncates the
concatenation to its first 64 characters; the claim requires different
nullifiers. -/
theorem c4_counterexample :
    uniquenessNullifier (String.mk (List.replicate 64 'a')) ("abc") ("e1") =
      uniquenessNullifier (String.mk (List.replicate 64 'a')) ("xyz") ("e1")
    ∧ (("abc") : String) ≠ ("xyz")
    ∧ validDaoId (some ("abc")) = true
    ∧ validDaoId (some ("xyz")) = true := by
  refine ⟨by decide, by decide, by decide, by decide⟩

/-- C4 (amended): the nullifier computed by generateUniquenessProof is
a pure function of reference id, scope and epoch, so repeated calls
(with any nonces) agree; and a different scope or a different epoch
(other inputs equal) yields a different nullifier provided the
concatenation of reference id, scope and epoch stays within 64
characters for both calls, the truncation width of mockPoseidon;
beyond that width distinct scopes or epochs can collide. -/
theorem c4_nullifier_determinism_and_bounded_distinctness :
    (∀ (data : AadhaarData) (daoId epochId nonce₁ nonce₂ : String),
      (uniquenessCircuitInputs data daoId epochId nonce₁).nullifier_hash =
        (uniquenessCircuitInputs data daoId epochId nonce₂).nullifier_hash)
    ∧ (∀ r d₁ d₂ e : String, ((r ++ d₁) ++ e).length ≤ 64 →
        ((r ++ d₂) ++ e).length ≤ 64 → d₁ ≠ d₂ →
        uniquenessNullifier r d₁ e ≠ uniquenessNullifier r d₂ e)
    ∧ (∀ r d e₁ e₂ : String, ((r ++ d) ++ e₁).length ≤ 64 →
        ((r ++ d) ++ e₂).length ≤ 64 → e₁ ≠ e₂ →
        uniquenessNullifier r d e₁ ≠ uniquenessNullifier r d e₂) := by
  refine ⟨fun data daoId epochId n₁ n₂ => rfl, ?_, ?_⟩
  · intro r d₁ d₂ e h₁ h₂ hne heq
    apply hne
    have h₁l : (r.data ++ d₁.data ++ e.data).length ≤ 64 := by
      rw [← String.data_append, ← String.data_append]
      exact h₁
    have h₂l : (r.data ++ d₂.data ++ e.data).length ≤ 64 := by
      rw [← String.data_append, ← String.data_append]
      exact h₂
    have hdata := congrArg String.data heq
    rw [uniquenessNullifier_data, uniquenessNullifier_data,
      List.take_of_length_le h₁l, List.take_of_length_le h₂l,
      List.append_assoc, List.append_assoc] at hdata
    have hde := List.append_cancel_left hdata
    have hd := List.append_cancel_right hde
    exact string_data_inj hd
  · intro r d e₁ e₂ h₁ h₂ hne heq
    apply hne
    have h₁l : (r.data ++ d.data ++ e₁.data).length ≤ 64 := by
      rw [← String.data_append, ← String.data_append]
      exact h₁
    have h₂l : (r.data ++ d.data ++ e₂.data).length ≤ 64 := by
      rw [← String.data_append, ← String.data_append]
      exact h₂
    have hdata := congrArg String.data heq
    rw [uniquenessNullifier_data, uniquenessNullifier_data,
      List.take_of_length_le h₁l, List.take_of_length_le h₂l] at hdata
    have he := List.append_cancel_left hdata
    exact string_data_inj he

/-- C4 witness: the bounded-distinctness part applied to a short
reference id and the scopes dao1 and dao2. -/
theorem c4_witness :
    uniquenessNullifier ("r1") ("dao1") ("e") ≠ uniquenessNullifier ("r1") ("dao2") ("e") :=
  (c4_nullifier_determinism_and_bounded_distinctness).2.1 ("r1") ("dao1") ("dao2") ("e")
    (by decide) (by decide) (by decide)

/-! Claim C6. -/

/-- C6 (confirmed): verifyProofResponse returns a non-verified result
whenever the response challenge id differs from the checked one, and
whenever the proof structure is incomplete (missing proof, pi_a or
publicSignals); otherwise it returns a verified result whose metadata
carries the identityCommitment and timestamp of the response. -/
theorem c6_verify_response (challengeId : String) (resp : ProofResponse) :
    (resp.challengeId ≠ challengeId →
      (verifyProofResponse challengeId resp).verified = false)
    ∧ (responseIncomplete resp = true →
      (verifyProofResponse challengeId resp).verified = false)
    ∧ (resp.challengeId = challengeId → responseIncomplete resp = false →
      verifyProofResponse challengeId resp =
        { verified := true, challengeId := challengeId, error := none,
          metadata := some { proofType := ("zkp"), identityCommitment := resp.identityCommitment, timestamp := resp.timestamp } }) := by
  refine ⟨?_, ?_, ?_⟩
  · intro h
    simp [verifyProofResponse, h]
  · intro h
    by_cases hid : resp.challengeId = challengeId
    · simp [verifyProofResponse, hid, h]
    · simp [verifyProofResponse, hid]
  · intro hid h
    simp [verifyProofResponse, hid, h]

/-- A complete sample response answering challenge id A. -/
def sampleResponse : ProofResponse :=
  { challengeId := ("A"),
    proof := some { pi_a := some [("x")], publicSignals := some [("s")] },
    identityCommitment := some ("s"),
    timestamp := 7 }

/-- C6 witness: the complete sample response for challenge A verifies
and carries its commitment and timestamp; the same response checked
against challenge id B is rejected. -/
theorem c6_witness :
    verifyProofResponse ("A") sampleResponse =
      { verified := true, challengeId := ("A"), error := none,
        metadata := some { proofType := ("zkp"), identityCommitment := some ("s"), timestamp := 7 } }
    ∧ (verifyProofResponse ("B") sampleResponse).verified = false :=
  ⟨(c6_verify_response ("A") sampleResponse).2.2 rfl (by decide),
   (c6_verify_response ("B") sampleResponse).1 (by decide)⟩

/-! Claim C9. -/

/-- C9 counterexample: generateChallenge performs no validation of the
requested expiration seconds; with a requested value of -1 the issued
challenge has expiresAt strictly before createdAt, contradicting the
claimed invariant that every issued challenge satisfies expiry strictly
after issuance. -/
theorem c9_counterexample :
    (generateChallenge ("app") ("App") ("age") {}
      { expirationSeconds := some (-1) } 1000000 ("cid") ("non")).expiresAt <
    (generateChallenge ("app") ("App") ("age") {}
      { expirationSeconds := some (-1) } 1000000 ("cid") ("non")).createdAt := by
  decide

/-- C9 (amended): the issued challenge has createdAt equal to the
issuance instant and expiresAt equal to createdAt plus 1000 times the
effective expiration seconds, where the effective value is the
requested one when supplied and nonzero (JavaScript truthiness) and 300
otherwise; the invariant expiry strictly after issuance holds exactly
when the effective seconds are positive, in particular whenever the
option is absent, but an unvalidated nonpositive request violates it. -/
theorem c9_challenge_expiry_formula (appId appName proofType : String)
    (params : ProofParams) (options : ChallengeOptions) (nowMs : Int)
    (idNonce optNonce : String) :
    (generateChallenge appId appName proofType params options nowMs
      idNonce optNonce).createdAt = nowMs
    ∧ (generateChallenge appId appName proofType params options nowMs
        idNonce optNonce).expiresAt =
      nowMs + jsOrInt options.expirationSeconds 300 * 1000
    ∧ (options.expirationSeconds = none →
      (generateChallenge appId appName proofType params options nowMs
        idNonce optNonce).expiresAt = nowMs + 300000)
    ∧ (0 < jsOrInt options.expirationSeconds 300 →
      (generateChallenge appId appName proofType params options nowMs
        idNonce optNonce).createdAt <
      (generateChallenge appId appName proofType params options nowMs
        idNonce optNonce).expiresAt) := by
  refine ⟨rfl, rfl, ?_, ?_⟩
  · intro h
    simp [generateChallenge, h, jsOrInt]
  · intro h
    simp only [generateChallenge]
    have : 0 < jsOrInt options.expirationSeconds 300 * 1000 := by positivity
    omega

/-- C9 witness: the amended theorem applied with no expiration option,
yielding the five-minute default and a challenge satisfying the
invariant. -/
theorem c9_witness :
    (generateChallenge ("app") ("App") ("age") {} {} 1000000 ("cid") ("non")).expiresAt
      = 1000000 + 300000
    ∧ (generateChallenge ("app") ("App") ("age") {} {} 1000000 ("cid") ("non")).createdAt <
      (generateChallenge ("app") ("App") ("age") {} {} 1000000 ("cid") ("non")).expiresAt :=
  ⟨(c9_challenge_expiry_formula ("app") ("App") ("age") {} {} 1000000 ("cid") ("non")).2.2.1 rfl,
   (c9_challenge_expiry_formula ("app") ("App") ("age") {} {} 1000000 ("cid") ("non")).2.2.2 (by decide)⟩

/-! Claim C10. -/

/-- C10 (confirmed): generateUniquenessProof raises an
InvalidParametersError, before the prover wrapper is ever reached,
exactly when the daoId parameter is not a string of 3 to 50 characters
drawn from alphanumerics, hyphens and underscores; with a valid daoId
the InvalidParametersError cannot occur and the generation proceeds. -/
theorem c10_dao_id_precondition (data : AadhaarData) (params : ProofParams)
    (nowMs : Int) (oracle : RandomOracle) :
    (validDaoId params.daoId = false →
      errIsInvalidParams (generateUniquenessProof data params nowMs oracle).1 = true
      ∧ (generateUniquenessProof data params nowMs oracle).2 = 0)
    ∧ (validDaoId params.daoId = true →
      ∃ pd, generateUniquenessProof data params nowMs oracle = ((.ok pd), 1)) := by
  constructor
  · intro h
    cases hd : params.daoId with
    | none =>
      simp [generateUniquenessProof, validateDaoIdRes, hd, errIsInvalidParams]
    | some d =>
      rw [hd] at h
      by_cases h1 : d.length < 3 ∨ 50 < d.length
      · simp [generateUniquenessProof, validateDaoIdRes, hd, h1, errIsInvalidParams]
      · by_cases h2 : d.data.all isDaoChar = true
        · exfalso
          have hgood : validDaoId (some d) = true := by
            simp only [validDaoId, h2, Bool.and_true, Bool.and_eq_true, decide_eq_true_eq]
            omega
          rw [hgood] at h
          cases h
        · simp [generateUniquenessProof, validateDaoIdRes, hd, h1, h2, errIsInvalidParams]
  · intro h
    cases hd : params.daoId with
    | none =>
      rw [hd] at h
      exact absurd h (by simp [validDaoId])
    | some d =>
      rw [hd] at h
      simp only [validDaoId, Bool.and_eq_true, decide_eq_true_eq] at h
      obtain ⟨⟨h3, h50⟩, hchars⟩ := h
      refine ⟨uniquenessSuccess data d (jsOr params.epochId ("global"))
        (jsOr params.nonce oracle.genNonce) nowMs oracle, ?_⟩
      simp only [generateUniquenessProof, validateDaoIdRes, hd]
      rw [if_neg (by omega), if_neg (by simp [hchars])]

/-- C10 witness: a two-character daoId is rejected with an
InvalidParametersError and the prover is not reached; a valid daoId
proceeds. -/
theorem c10_witness :
    (errIsInvalidParams
      (generateUniquenessProof sampleRecord { daoId := some ("ab") } 1600000000000 sampleOracle).1 = true
    ∧ (generateUniquenessProof sampleRecord { daoId := some ("ab") } 1600000000000 sampleOracle).2 = 0)
    ∧ ∃ pd, generateUniquenessProof sampleRecord { daoId := some ("dao-1") } 1600000000000 sampleOracle = ((.ok pd), 1) :=
  ⟨(c10_dao_id_precondition sampleRecord { daoId := some ("ab") } 1600000000000 sampleOracle).1
      (by decide),
   (c10_dao_id_precondition sampleRecord { daoId := some ("dao-1") } 1600000000000 sampleOracle).2
      (by decide)⟩

/-! Claim C5. -/

/-- A challenge that expired at instant 5. -/
def expiredChallenge : Challenge :=
  { challengeId := ("c1"), appId := ("app"), appName := ("App"),
    proofType := ("age"), params := { threshold := some 18 },
    expiresAt := 5, callbackUrl := none, nonce := ("n"), createdAt := 0 }

/-- A challenge that is live throughout 2020. -/
def freshChallenge : Challenge :=
  { challengeId := ("c1"), appId := ("app"), appName := ("App"),
    proofType := ("age"), params := { threshold := some 18 },
    expiresAt := 1700000000000, callbackUrl := none, nonce := ("n"),
    createdAt := 0 }

/-- C5 counterexample: on an expired challenge respondToChallenge does
fail without dispatching any generation, but the error it raises
carries the code PROOF_GENERATION_FAILED (the expiry throw happens
inside the try block and is rewrapped by the catch clause), not the
SESSION_EXPIRED code of a session-expired error as the claim
requires. -/
theorem c5_counterexample :
    errCode (respondToChallenge expiredChallenge sampleRecord 10 sampleOracle).1 =
      some ("PROOF_GENERATION_FAILED")
    ∧ errCode (respondToChallenge expiredChallenge sampleRecord 10 sampleOracle).1 ≠
      some ERROR_CODE_SESSION_EXPIRED
    ∧ (respondToChallenge expiredChallenge sampleRecord 10 sampleOracle).2 = 0 := by
  decide

/-- C5 (amended): when now is past expiresAt, respondToChallenge fails
without dispatching any proof generation (the prover wrapper count
stays 0), raising a ProofGenerationError that wraps the
challenge-expired message rather than a dedicated session-expired
error; when now is at or before expiresAt it dispatches to the
generation engine, and a successful generation yields a Response
carrying the original challenge id. -/
theorem c5_challenge_expiry (ch : Challenge) (data : AadhaarData)
    (nowMs : Int) (oracle : RandomOracle) :
    (ch.expiresAt < nowMs →
      respondToChallenge ch data nowMs oracle =
        ((.error (.proofGenerationFailed
          ("Failed to respond to challenge: InvalidParametersError: Challenge has expired")
          none)), 0))
    ∧ (nowMs ≤ ch.expiresAt → ∀ pd k,
      dispatchProof ch data nowMs oracle = ((.ok pd), k) →
      respondToChallenge ch data nowMs oracle =
        ((.ok (buildChallengeResponse ch.challengeId pd nowMs)), k)
      ∧ (buildChallengeResponse ch.challengeId pd nowMs).challengeId =
        ch.challengeId) := by
  constructor
  · intro h
    simp only [respondToChallenge, if_pos h]
  · intro h pd k hdis
    refine ⟨?_, rfl⟩
    simp only [respondToChallenge, hdis]
    rw [if_neg (by omega)]

/-- C5 witness: the amended theorem applied to a live age challenge and
an adult record; the generation succeeds and the Response carries the
challenge id. -/
theorem c5_witness :
    respondToChallenge freshChallenge adultRecord 1600000000000 sampleOracle =
      ((.ok (buildChallengeResponse ("c1")
        (ageSuccess 18 1600000000000 sampleOracle) 1600000000000)), 1) :=
  ((c5_challenge_expiry freshChallenge adultRecord 1600000000000 sampleOracle).2
    (by decide) (ageSuccess 18 1600000000000 sampleOracle) 1 rfl).1

/-! Claim C7. -/

/-- Concatenating the chunks restores the original list (for a positive
chunk size). -/
theorem chunk_flatten {α : Type} (size : Nat) (h : 1 ≤ size) :
    ∀ l : List α, (chunk size l).flatten = l
  | [] => by simp [chunk]
  | x :: xs => by
    rw [chunk, List.flatten_cons, chunk_flatten size h (xs.drop (size - 1))]
    cases size with
    | zero => exact absurd h (by decide)
    | succ n =>
      have hdrop : (x :: xs).drop (n + 1) = xs.drop n := List.drop_succ_cons
      conv_lhs => rw [show n + 1 - 1 = n from rfl, ← hdrop]
      exact List.take_append_drop (n + 1) (x :: xs)
termination_by l => l.length
decreasing_by
  simp only [List.length_drop, List.length_cons]
  omega

/-- Every chunk has at most the requested size. -/
theorem chunk_length_le {α : Type} (size : Nat) :
    ∀ l : List α, ∀ c ∈ chunk size l, c.length ≤ size
  | [] => by simp [chunk]
  | x :: xs => by
    intro c hc
    rw [chunk] at hc
    rcases List.mem_cons.mp hc with h | h
    · subst h
      calc ((x :: xs).take size).length
          = min size (x :: xs).length := List.length_take size (x :: xs)
        _ ≤ size := min_le_left _ _
    · exact chunk_length_le size (xs.drop (size - 1)) c h
termination_by l => l.length
decreasing_by
  simp only [List.length_drop, List.length_cons]
  omega

/-- filterMap distributes over the flattening of a list of lists. -/
theorem flatten_filterMap {α β : Type} (L : List (List α)) (g : α → Option β) :
    (L.map (fun c => c.filterMap g)).flatten = L.flatten.filterMap g := by
  induction L with
  | nil => rfl
  | cons x xs ih =>
    rw [List.map_cons, List.flatten_cons, List.flatten_cons,
      List.filterMap_append, ih]

/-- Chunked map-then-filterMap processing equals direct processing of
the whole list. -/
theorem chunked_filterMap {α β γ : Type} (size : Nat) (h : 1 ≤ size)
    (l : List α) (f : α → β) (g : β → Option γ) :
    (((chunk size l).map (fun c => c.map f)).map
      (fun rs => rs.filterMap g)).flatten = l.filterMap (fun a => g (f a)) := by
  rw [List.map_map]
  have hcomp : ((fun rs => rs.filterMap g) ∘ (fun c => c.map f)) =
      (fun c : List α => c.filterMap (fun a => g (f a))) := by
    funext c
    show (c.map f).filterMap g = c.filterMap (fun a => g (f a))
    rw [List.filterMap_map]
    rfl
  rw [hcomp, flatten_filterMap, chunk_flatten size h]

/-- batchGenerate in closed form: per-request isolated outcomes over
the whole request list, with the error list omitted when empty. -/
theorem batchGenerate_eq (data : AadhaarData) (nowMs : Int)
    (reqs : List (BatchProofRequest × RandomOracle)) :
    batchGenerate data nowMs reqs =
      { proofs := reqs.filterMap (fun p => batchOk (runBatchRequest data nowMs p)),
        errors :=
          if (reqs.filterMap (fun p => batchErr (runBatchRequest data nowMs p))).isEmpty
          then none
          else some (reqs.filterMap (fun p => batchErr (runBatchRequest data nowMs p))) } := by
  simp only [batchGenerate]
  rw [chunked_filterMap 3 (by decide) reqs (runBatchRequest data nowMs) batchOk,
    chunked_filterMap 3 (by decide) reqs (runBatchRequest data nowMs) batchErr]

/-- C7 (confirmed): in batchGenerate every request is processed in
isolation: the proof list collects exactly the successful outcomes of
the individual requests in order, the error list exactly the failing
ones (one entry per failure), so one failing request neither removes
nor prevents the successful results of the others; and the requests are
dispatched through chunks of size 3 whose concatenation is exactly the
request list. -/
theorem c7_batch_isolation (data : AadhaarData) (nowMs : Int)
    (reqs : List (BatchProofRequest × RandomOracle)) :
    (batchGenerate data nowMs reqs).proofs =
      reqs.filterMap (fun p => batchOk (runBatchRequest data nowMs p))
    ∧ (batchGenerate data nowMs reqs).errors.getD [] =
      reqs.filterMap (fun p => batchErr (runBatchRequest data nowMs p))
    ∧ (chunk 3 reqs).flatten = reqs
    ∧ (∀ c ∈ chunk 3 reqs, c.length ≤ 3) := by
  refine ⟨?_, ?_, chunk_flatten 3 (by decide) reqs, chunk_length_le 3 reqs⟩
  · rw [batchGenerate_eq]
  · rw [batchGenerate_eq]
    by_cases hc :
      (reqs.filterMap (fun p => batchErr (runBatchRequest data nowMs p))).isEmpty = true
    · simp only [hc, if_true]
      rw [List.isEmpty_iff.mp hc]
      rfl
    · simp only [hc, Bool.false_eq_true, if_false]
      rfl

/-- A failing age request: threshold 200 fails validateAgeThreshold. -/
def failingAgeRequest : BatchProofRequest :=
  { type := ("age"), params := { threshold := some 200 } }

/-- A succeeding nationality request for the country IN. -/
def okNationalityRequest : BatchProofRequest :=
  { type := ("nationality"), params := { allowedCountries := some [("IN")] } }

/-- C7 witness: a batch of a failing age request and a succeeding
nationality request yields exactly the nationality attestation in the
proof list and exactly one age entry in the error list. -/
theorem c7_witness :
    (batchGenerate sampleRecord 1600000000000
      [(failingAgeRequest, sampleOracle), (okNationalityRequest, sampleOracle2)]).proofs =
      [nationalitySuccess [("IN")] 1600000000000 sampleOracle2]
    ∧ (batchGenerate sampleRecord 1600000000000
      [(failingAgeRequest, sampleOracle), (okNationalityRequest, sampleOracle2)]).errors.getD [] =
      [("age: InvalidParametersError: ") ++ ageInvalidMsg] :=
  ⟨((c7_batch_isolation sampleRecord 1600000000000
      [(failingAgeRequest, sampleOracle), (okNationalityRequest, sampleOracle2)]).1).trans
    (by decide),
   ((c7_batch_isolation sampleRecord 1600000000000
      [(failingAgeRequest, sampleOracle), (okNationalityRequest, sampleOracle2)]).2.1).trans
    (by decide)⟩

/-! Claim C8. -/

/-- Looking up the key just set returns the new entry. -/
theorem mapGet_mapSet_self (m : ProofCacheMap) (key : String)
    (v : ProofCacheEntry) : mapGet (mapSet m key v) key = some v := by
  simp [mapSet, mapGet]

/-- Membership characterisation of the expiry sweep: exactly the
entries whose expiresAt is strictly in the future survive. -/
theorem mem_clearExpiredProofs (m : ProofCacheMap) (nowMs : Int)
    (p : String × ProofCacheEntry) :
    p ∈ clearExpiredProofs m nowMs ↔ (p ∈ m ∧ nowMs < p.2.expiresAt) := by
  induction m with
  | nil => simp [clearExpiredProofs]
  | cons q rest ih =>
    obtain ⟨k, e⟩ := q
    simp only [clearExpiredProofs]
    by_cases h : e.expiresAt ≤ nowMs
    · rw [if_pos h, ih]
      constructor
      · rintro ⟨hm, hexp⟩
        exact ⟨List.mem_cons_of_mem _ hm, hexp⟩
      · rintro ⟨hm, hexp⟩
        rcases List.mem_cons.mp hm with rfl | hm'
        · exact absurd (show nowMs < e.expiresAt from hexp) (by omega)
        · exact ⟨hm', hexp⟩
    · rw [if_neg h]
      constructor
      · intro hp
        rcases List.mem_cons.mp hp with rfl | hp'
        · refine ⟨List.mem_cons_self _ _, ?_⟩
          show nowMs < e.expiresAt
          omega
        · obtain ⟨hm, hexp⟩ := ih.mp hp'
          exact ⟨List.mem_cons_of_mem _ hm, hexp⟩
      · rintro ⟨hm, hexp⟩
        rcases List.mem_cons.mp hm with rfl | hm'
        · exact List.mem_cons_self _ _
        · exact List.mem_cons_of_mem _ (ih.mpr ⟨hm', hexp⟩)

/-- C8 (confirmed): every entry created by cacheProof has expiresAt
equal to createdAt plus CIRCUIT_CACHE_TTL with the TTL positive, hence
expiresAt strictly after createdAt; a cached attestation is returned by
the lookup exactly when now is strictly before expiresAt; and
clearExpiredProofs removes exactly the entries with expiresAt at or
before now, keeping every live entry. -/
theorem c8_cache_invariants (m : ProofCacheMap) (key : String)
    (pd : ProofData) (nowMs t₂ : Int) :
    (mapGet (cacheProof m key pd nowMs) key =
      some { proofData := pd, createdAt := nowMs, expiresAt := nowMs + CIRCUIT_CACHE_TTL })
    ∧ ((0 : Int) < CIRCUIT_CACHE_TTL ∧ nowMs < nowMs + CIRCUIT_CACHE_TTL)
    ∧ (∀ e, mapGet m key = some e →
      (cacheLookup m key t₂ = some e.proofData ↔ t₂ < e.expiresAt))
    ∧ (∀ p, p ∈ clearExpiredProofs m t₂ ↔ (p ∈ m ∧ t₂ < p.2.expiresAt)) := by
  refine ⟨mapGet_mapSet_self m key _,
    ⟨by decide, by simp only [CIRCUIT_CACHE_TTL]; omega⟩, ?_,
    fun p => mem_clearExpiredProofs m t₂ p⟩
  intro e he
  simp only [cacheLookup, he]
  by_cases h : t₂ < e.expiresAt
  · simp [h]
  · simp [h]

/-- An attestation for the cache-invariant witness. -/
def samplePd : ProofData :=
  { proof := mockProofValue, publicSignals := [("s")],
    attributeType := ("age"), metadata := none }

/-- A one-entry cache whose entry expires at instant 100. -/
def sampleCache : ProofCacheMap :=
  [(("k"), { proofData := samplePd, createdAt := 0, expiresAt := 100 })]

/-- C8 witness: the invariant theorem applied to the one-entry cache:
a fresh entry carries its TTL expiry, and the live entry is returned at
instant 50 exactly because 50 is before 100. -/
theorem c8_witness :
    (mapGet (cacheProof sampleCache ("k2") samplePd 1000) ("k2") =
      some { proofData := samplePd, createdAt := 1000, expiresAt := 1000 + CIRCUIT_CACHE_TTL })
    ∧ cacheLookup sampleCache ("k") 50 = some samplePd :=
  ⟨(c8_cache_invariants sampleCache ("k2") samplePd 1000 50).1,
   by
    have h := (c8_cache_invariants sampleCache ("k") samplePd 1000 50).2.2.1
      { proofData := samplePd, createdAt := 0, expiresAt := 100 } (by decide)
    exact h.mpr (by decide)⟩

/-! Claim C2. -/

/-- A successful cache-missing run of the enhanced age generation
stores its attestation under the cache key with the call instant. -/
theorem enhancedAgeMiss_ok (cache : ProofCacheMap) (key : String)
    (data : AadhaarData) (t : Int) (nonceOpt : Option String) (nowMs : Int)
    (oracle : RandomOracle) (commit : CommitFn) (prover : AgeProver)
    (p : ProofData) (cache' : ProofCacheMap)
    (h : enhancedAgeMiss cache key data t nonceOpt nowMs oracle commit prover =
      ((.ok p), cache', 1)) :
    cache' = cacheProof cache key p nowMs := by
  simp only [enhancedAgeMiss, enhancedAgeProve] at h
  split at h
  · split at h
    · simp at h
    · split at h
      · simp only [Prod.mk.injEq, Except.ok.injEq] at h
        obtain ⟨hpd, hc, -⟩ := h
        subst hpd
        exact hc.symm
      · simp at h
  · split at h
    · simp only [Prod.mk.injEq, Except.ok.injEq] at h
      obtain ⟨hpd, hc, -⟩ := h
      subst hpd
      exact hc.symm
    · simp at h

/-- Looking up the freshly cached attestation before its expiry
succeeds. -/
theorem cacheLookup_cacheProof (m : ProofCacheMap) (key : String)
    (pd : ProofData) (nowMs t₂ : Int) (h : t₂ < nowMs + CIRCUIT_CACHE_TTL) :
    cacheLookup (cacheProof m key pd nowMs) key t₂ = some pd := by
  simp only [cacheLookup, cacheProof, mapGet_mapSet_self]
  simp [h]

/-- C2 (confirmed): if a first call of the enhanced generateAgeProof
computed a proof (its prover wrapper ran once) and succeeded, then a
second call with the same parameters and a record with the same
referenceId, made while the stored entry is unexpired, returns the very
same attestation from the cache, leaves the cache unchanged and does
not invoke the prover at all, whatever nonces, commitment function or
prover the second call is given: at most one proof computation per
fingerprint within the TTL. -/
theorem c2_cache_hit_within_ttl (cache : ProofCacheMap)
    (data data₂ : AadhaarData) (params : ProofParams) (t₁ t₂ : Int)
    (o₁ o₂ : RandomOracle) (commit₁ commit₂ : CommitFn)
    (prover₁ prover₂ : AgeProver) (p : ProofData) (cache₁ : ProofCacheMap)
    (href : data₂.referenceId = data.referenceId)
    (h1 : enhancedGenerateAgeProof cache data params t₁ o₁ commit₁ prover₁ =
      ((.ok p), cache₁, 1))
    (ht : t₂ < t₁ + CIRCUIT_CACHE_TTL) :
    enhancedGenerateAgeProof cache₁ data₂ params t₂ o₂ commit₂ prover₂ =
      ((.ok p), cache₁, 0) := by
  cases hth : params.threshold with
  | none =>
    simp only [enhancedGenerateAgeProof, hth] at h1
    simp at h1
  | some t =>
    simp only [enhancedGenerateAgeProof, hth] at h1 ⊢
    by_cases hv : t < 0 ∨ 150 < t
    · rw [if_pos hv] at h1
      simp at h1
    · rw [if_neg hv] at h1
      rw [if_neg hv]
      have hkey : generateCacheKey ("age") data₂ params =
          generateCacheKey ("age") data params := by
        simp only [generateCacheKey, href]
      rw [hkey]
      cases hcl : cacheLookup cache (generateCacheKey ("age") data params) t₁ with
      | some pd0 =>
        rw [hcl] at h1
        simp at h1
      | none =>
        rw [hcl] at h1
        have hc1 := enhancedAgeMiss_ok cache
          (generateCacheKey ("age") data params) data t params.nonce t₁ o₁
          commit₁ prover₁ p cache₁ h1
        subst hc1
        rw [cacheLookup_cacheProof cache
          (generateCacheKey ("age") data params) p t₁ t₂ ht]

/-- Parameters of the cache-hit witness. -/
def c2params : ProofParams := { threshold := some 18 }

/-- A prover that always succeeds with fixed public signals. -/
def c2prover : AgeProver := fun _ => .ok (mockProofValue, [("s1"), ("s2")])

/-- A prover that always fails, standing in for an unavailable external
prover at the time of the second call. -/
def c2proverDown : AgeProver := fun _ => .error ("prover-offline")

/-- A fixed commitment capability. -/
def c2commit : CommitFn := fun _ => ("c")

/-- The attestation produced by the first witness call. -/
def c2pd : ProofData :=
  { proof := mockProofValue, publicSignals := [("s1"), ("s2")],
    attributeType := ("age"),
    metadata := some { threshold := some 18, timestamp := 1600000000000, identityCommitment := some ("c") } }

/-- The cache state after the first witness call. -/
def c2cache1 : ProofCacheMap :=
  cacheProof [] (generateCacheKey ("age") adultRecord c2params) c2pd 1600000000000

/-- C2 witness: after a computing first call on an empty cache, a call
one millisecond later with the same record and parameters, a different
oracle and a prover that now always fails still returns the first
attestation with no prover invocation and an unchanged cache. -/
theorem c2_witness :
    enhancedGenerateAgeProof c2cache1 adultRecord c2params 1600000000001
      sampleOracle2 c2commit c2proverDown = ((.ok c2pd), c2cache1, 0) :=
  c2_cache_hit_within_ttl [] adultRecord adultRecord c2params
    1600000000000 1600000000001 sampleOracle sampleOracle2 c2commit c2commit
    c2prover c2proverDown c2pd c2cache1 rfl rfl (by decide)

end Solstice
